import Mathlib

/-!
Shallow embedding of the quantitative engine of
`src/WorldCupTicketSimulator.jsx` (a World Cup ticket investment
simulator).  JavaScript floating-point numbers are modelled by exact
rationals `ℚ` wherever the source performs only field operations, and by
real numbers `ℝ` where the source uses fractional powers
(`(1+r) ** (m/12)`), modelled by `Real.rpow`.

Source landmarks (line numbers refer to the JSX file):
* lines 10-19  : `americanToDecimal`, `decimalToAmerican`
* lines 81-95  : `oddsData` (implied/fair probabilities, margin)
* lines 106-119: `stageOdds` (conditional probabilities, adjusted odds)
* lines 122-124: `totalPurchase`, `carryingCost`, `probFinals`
* lines 127-141: `calculateIRR`
* lines 144-150: `hedgeCarryCostPerStage`
* lines 153-258: `scenarios` (5 elimination scenarios + finals scenario)
* lines 293-301: `breakEvenResale`
* lines 304-322: `sensitivityData`
-/

/-- The seven mutually exclusive outcomes: five elimination stages in
tournament order, then the two terminal outcomes. -/
inductive Outcome where
  | Group | R32 | R16 | QF | SF | RunnerUp | Winner
deriving DecidableEq, Repr

open Outcome

/-- `const STAGES = ['Group', 'R32', 'R16', 'QF', 'SF']` (line 4). -/
def STAGES : List Outcome := [Group, R32, R16, QF, SF]

/-- `const ALL_OUTCOMES = [...STAGES, 'RunnerUp', 'Winner']` (line 6). -/
def ALL_OUTCOMES : List Outcome := STAGES ++ [RunnerUp, Winner]

/-- The stage at position `i` of `STAGES` (the loop index of line 157). -/
def stageAt : Fin 5 → Outcome
  | 0 => Group | 1 => R32 | 2 => R16 | 3 => QF | 4 => SF

/-- JavaScript `Math.round` (round half toward positive infinity). -/
def jsRound (q : ℚ) : ℤ := ⌊q + 1 / 2⌋

/-- `americanToDecimal` (lines 10-14): `am >= 100 → 1 + am/100`;
`am <= -100 → 1 + 100/|am|`; otherwise the invalid sentinel `1`. -/
def americanToDecimal (am : ℚ) : ℚ :=
  if am ≥ 100 then 1 + am / 100
  else if am ≤ -100 then 1 + 100 / |am|
  else 1

/-- `decimalToAmerican` (lines 15-19): `dec >= 2 → round((dec-1)*100)`;
`1 < dec < 2 → round(-100/(dec-1))`; otherwise the invalid sentinel `0`. -/
def decimalToAmerican (dec : ℚ) : ℤ :=
  if dec ≥ 2 then jsRound ((dec - 1) * 100)
  else if dec > 1 then jsRound (-100 / (dec - 1))
  else 0

/-- Implied probability of one outcome (line 85):
`bettingOdds[key] > 0 ? (1 / bettingOdds[key]) * 100 : 0`. -/
def impliedProb (o : Outcome → ℚ) (k : Outcome) : ℚ :=
  if 0 < o k then (1 / o k) * 100 else 0

/-- `totalImplied` (lines 83-88): sum of implied probabilities over all
seven outcomes. -/
def totalImplied (o : Outcome → ℚ) : ℚ :=
  (ALL_OUTCOMES.map (impliedProb o)).sum

/-- `margin = totalImplied - 100` (line 89). -/
def margin (o : Outcome → ℚ) : ℚ := totalImplied o - 100

/-- Fair (devigged) probability (line 92):
`totalImplied > 0 ? (impliedProbs[key] / totalImplied) * 100 : 0`. -/
def fairProbs (o : Outcome → ℚ) (k : Outcome) : ℚ :=
  if 0 < totalImplied o then (impliedProb o k / totalImplied o) * 100 else 0

/-- `probFinals = fairProbs.RunnerUp + fairProbs.Winner` (line 124). -/
def probFinals (o : Outcome → ℚ) : ℚ :=
  fairProbs o RunnerUp + fairProbs o Winner

/-- `vigFactor` (line 108):
`totalImplied > 0 ? 100 / totalImplied : 1`. -/
def vigFactor (o : Outcome → ℚ) : ℚ :=
  if 0 < totalImplied o then 100 / totalImplied o else 1

/-- Cumulative eliminated fair probability before stage `i`
(the running `cumProb` of lines 109-117). -/
def cumProbBefore (o : Outcome → ℚ) (i : Fin 5) : ℚ :=
  ((STAGES.take i.val).map (fairProbs o)).sum

/-- `survivalProb = (100 - cumProb) / 100` (line 111). -/
def survivalProb (o : Outcome → ℚ) (i : Fin 5) : ℚ :=
  (100 - cumProbBefore o i) / 100

/-- Conditional elimination probability (line 112):
`survivalProb > 0 ? (elimProbs[stage] / 100) / survivalProb : 0`
(`elimProbs[stage]` is `fairProbs[stage]`, lines 98-102). -/
def condProb (o : Outcome → ℚ) (i : Fin 5) : ℚ :=
  if 0 < survivalProb o i then (fairProbs o (stageAt i) / 100) / survivalProb o i
  else 0

/-- `fairOdds = condProb > 0 ? 1 / condProb : Infinity` (line 113).
The source's `Infinity` sentinel for `condProb = 0` is represented here
by the junk value `0`; every theorem that reads these odds assumes
`0 < condProb`. -/
def fairStageOdds (o : Outcome → ℚ) (i : Fin 5) : ℚ :=
  if 0 < condProb o i then 1 / condProb o i else 0

/-- `adjustedOdds = fairOdds * vigFactor` (line 114). -/
def adjustedOdds (o : Outcome → ℚ) (i : Fin 5) : ℚ :=
  fairStageOdds o i * vigFactor o

/-- The engine's input state: the `useState` cells of lines 44-62 that
feed the quantitative pipeline (display-only state is omitted). -/
structure Config where
  pricePerTicket : ℚ
  numTickets : ℚ
  resaleFeePercent : ℚ
  processingFeePercent : ℚ
  fixedTransactionCost : ℚ
  annualOpportunityCost : ℚ
  expectedResale : ℚ
  hedgeEnabled : Bool
  bettingOdds : Outcome → ℚ
  hedgeStakes : Outcome → ℚ

/-- `const DEFAULTS = {...}` (lines 23-31); `hedgeStakes` is defined on
the five stage outcomes only in the source, extended by `0` elsewhere. -/
def DEFAULTS : Config where
  pricePerTicket := 4185
  numTickets := 2
  resaleFeePercent := 15
  processingFeePercent := 3
  fixedTransactionCost := 0
  annualOpportunityCost := 6
  expectedResale := 10000
  hedgeEnabled := true
  bettingOdds := fun k => match k with
    | .Group => 31 | .R32 => 43 / 10 | .R16 => 4 | .QF => 43 / 10
    | .SF => 11 / 2 | .RunnerUp => 9 | .Winner => 9
  hedgeStakes := fun k => match k with
    | .Group => 25 | .R32 => 300 | .R16 => 500 | .QF => 1200
    | .SF => 3100 | .RunnerUp => 0 | .Winner => 0

/-- `hedgeMonths = { Group: 4, R32: 4, R16: 4, QF: 5, SF: 5 }` (line 77);
the source object has no key for the terminal outcomes, extended by `0`. -/
def hedgeMonths : Outcome → ℚ
  | .Group => 4 | .R32 => 4 | .R16 => 4 | .QF => 5 | .SF => 5
  | .RunnerUp => 0 | .Winner => 0

/-- `proceedsMonth = 5.5` (line 78). -/
def proceedsMonth : ℚ := 11 / 2

/-- `totalPurchase = numTickets * pricePerTicket` (line 122). -/
def totalPurchase (cfg : Config) : ℚ := cfg.numTickets * cfg.pricePerTicket

/-- `carryingCost` (line 123):
`totalPurchase * ((1 + annualOpportunityCost/100) ** (proceedsMonth/12) - 1)`,
a fractional power, hence valued in `ℝ` via `Real.rpow`. -/
noncomputable def carryingCost (cfg : Config) : ℝ :=
  (totalPurchase cfg : ℝ) *
    ((1 + (cfg.annualOpportunityCost : ℝ) / 100) ^ ((proceedsMonth : ℝ) / 12) - 1)

/-- A cash-flow event `{ month, amount }`: months are the exact source
constants (0, 4, 5, 5.5), amounts may involve carrying costs in `ℝ`. -/
structure CashFlow where
  month : ℚ
  amount : ℝ

/-- `npv(r)` (line 128):
`cashFlows.reduce((sum, cf) => sum + cf.amount / (1 + r) ** cf.month, 0)`. -/
noncomputable def npv (cashFlows : List CashFlow) (r : ℝ) : ℝ :=
  cashFlows.foldl (fun sum cf => sum + cf.amount / (1 + r) ^ (cf.month : ℝ)) 0

/-- `dnpv(r)` (line 129):
`cashFlows.reduce((sum, cf) => sum + (-cf.month * cf.amount) / (1 + r) ** (cf.month + 1), 0)`. -/
noncomputable def dnpv (cashFlows : List CashFlow) (r : ℝ) : ℝ :=
  cashFlows.foldl
    (fun sum cf => sum + (-(cf.month : ℝ) * cf.amount) / (1 + r) ^ ((cf.month : ℝ) + 1)) 0

/-- `((1 + r) ** 12 - 1) * 100` (line 140): annualize a monthly rate. -/
noncomputable def annualize (r : ℝ) : ℝ := ((1 + r) ^ (12 : ℕ) - 1) * 100

/-- The Newton-Raphson loop of `calculateIRR` (lines 131-140), with the
remaining iteration count as fuel.  One source iteration: compute
`f = npv(r)` and `df = dnpv(r)`; if `|df| < 1e-14` break (annualize the
current `r`); otherwise `rNew = r - f/df`; if `|rNew - r| < tol` set
`r = rNew` and break (annualize `rNew`); otherwise set `r = rNew` and, if
`r <= -1`, return the `-100` sentinel; else iterate. -/
noncomputable def irrGo (cashFlows : List CashFlow) : ℕ → ℝ → ℝ
  | 0, r => annualize r
  | fuel + 1, r =>
      let f := npv cashFlows r
      let df := dnpv cashFlows r
      if |df| < 1e-14 then annualize r
      else
        let rNew := r - f / df
        if |rNew - r| < 1e-8 then annualize rNew
        else if rNew ≤ -1 then -100
        else irrGo cashFlows fuel rNew

/-- `calculateIRR(cashFlows, maxIter = 100, tol = 1e-8)` (lines 127-141),
always called with the default `maxIter` and `tol`; starts at `r = 0.01`. -/
noncomputable def calculateIRR (cashFlows : List CashFlow) : ℝ :=
  irrGo cashFlows 100 (1 / 100)

/-- `hedgeCarryCostPerStage(stages)` (lines 144-150): `0` when hedging is
disabled, otherwise
`Σ stakes[s] * ((1 + annualOpportunityCost/100) ** ((proceedsMonth - hedgeMonths[s]) / 12) - 1)`. -/
noncomputable def hedgeCarryCostPerStage (cfg : Config) (stages : List Outcome) : ℝ :=
  if cfg.hedgeEnabled then
    stages.foldl
      (fun sum s => sum + (cfg.hedgeStakes s : ℝ) *
        ((1 + (cfg.annualOpportunityCost : ℝ) / 100) ^
          (((proceedsMonth - hedgeMonths s : ℚ) : ℝ) / 12) - 1)) 0
  else 0

/-- `placedStages = STAGES.slice(0, i + 1)` (line 159). -/
def placedStages (i : Fin 5) : List Outcome := STAGES.take (i.val + 1)

/-- `totalStakePlaced` (line 160): sum of the stakes of the placed
stages when hedging is enabled, else `0`. -/
def totalStakePlaced (cfg : Config) (i : Fin 5) : ℚ :=
  if cfg.hedgeEnabled then ((placedStages i).map cfg.hedgeStakes).sum else 0

/-- `winningStake = hedgeEnabled ? hedgeStakes[elimStage] : 0` (line 164). -/
def winningStake (cfg : Config) (i : Fin 5) : ℚ :=
  if cfg.hedgeEnabled then cfg.hedgeStakes (stageAt i) else 0

/-- `hedgeReturn = winningStake * winningOdds` (lines 165-166), where
`winningOdds = stageOdds[elimStage].adjustedOdds`. -/
def hedgeReturn (cfg : Config) (i : Fin 5) : ℚ :=
  winningStake cfg i * adjustedOdds cfg.bettingOdds i

/-- `lostStakes` (line 168): stakes of the stages strictly before the
elimination stage, when hedging is enabled. -/
def lostStakes (cfg : Config) (i : Fin 5) : ℚ :=
  if cfg.hedgeEnabled then ((STAGES.take i.val).map cfg.hedgeStakes).sum else 0

/-- `hedgeResult = hedgeEnabled ? winningStake * (winningOdds - 1) - lostStakes : 0`
(line 169). -/
def elimHedgeResult (cfg : Config) (i : Fin 5) : ℚ :=
  if cfg.hedgeEnabled then
    winningStake cfg i * (adjustedOdds cfg.bettingOdds i - 1) - lostStakes cfg i
  else 0

/-- The hedge-stake outflows pushed onto the cash-flow list when hedging
is enabled (lines 180-189 and 226-235): the source groups the placed
stakes by placement month in `outflowByMonth` and emits one outflow per
month via `Object.entries`, which enumerates the numeric keys in
ascending order.  `hedgeMonths` maps stages to month 4 or month 5 only,
so the emitted list is the month-4 outflow (if any stage placed in month
4) followed by the month-5 outflow (if any). -/
def hedgeOutflows (stakes : Outcome → ℚ) (stages : List Outcome) : List CashFlow :=
  (if stages.any (fun s => hedgeMonths s == 4) then
    [⟨4, -((((stages.filter (fun s => hedgeMonths s == 4)).map stakes).sum : ℚ) : ℝ)⟩]
   else []) ++
  (if stages.any (fun s => hedgeMonths s == 5) then
    [⟨5, -((((stages.filter (fun s => hedgeMonths s == 5)).map stakes).sum : ℚ) : ℝ)⟩]
   else [])

/-- The IRR cash flows of elimination scenario `i` (lines 176-189):
purchase outflow at month 0, reimbursement plus (when hedging) the
winning hedge payout at the proceeds month, then the hedge-stake
outflows when hedging is enabled. -/
noncomputable def elimCashFlows (cfg : Config) (i : Fin 5) : List CashFlow :=
  [⟨0, -(totalPurchase cfg : ℝ)⟩,
   ⟨proceedsMonth, ((cfg.pricePerTicket * cfg.numTickets : ℚ) : ℝ) +
      (if cfg.hedgeEnabled then ((hedgeReturn cfg i : ℚ) : ℝ) else 0)⟩] ++
  (if cfg.hedgeEnabled then hedgeOutflows cfg.hedgeStakes (placedStages i) else [])

/-- One scenario record (the object literals of lines 191-207 and
237-253), restricted to the quantitative fields. -/
structure Scenario where
  probability : ℚ
  isFinals : Bool
  grossProceeds : ℝ
  netProceeds : ℝ
  resaleFee : ℝ
  processingFee : ℝ
  totalFees : ℝ
  hedgeResult : ℝ
  hCarryCost : ℝ
  stakePlaced : ℚ
  netPL : ℝ
  roi : ℝ

/-- Elimination scenario `i` (lines 157-208): full reimbursement
`grossProceeds = pricePerTicket * numTickets` with no fees,
`netPL = grossProceeds - totalPurchase - carryingCost - hCarryCost + hedgeResult`. -/
noncomputable def elimScenario (cfg : Config) (i : Fin 5) : Scenario where
  probability := fairProbs cfg.bettingOdds (stageAt i)
  isFinals := false
  grossProceeds := ((cfg.pricePerTicket * cfg.numTickets : ℚ) : ℝ)
  netProceeds := ((cfg.pricePerTicket * cfg.numTickets : ℚ) : ℝ)
  resaleFee := 0
  processingFee := 0
  totalFees := 0
  hedgeResult := ((elimHedgeResult cfg i : ℚ) : ℝ)
  hCarryCost := hedgeCarryCostPerStage cfg (placedStages i)
  stakePlaced := totalStakePlaced cfg i
  netPL := ((cfg.pricePerTicket * cfg.numTickets : ℚ) : ℝ) - (totalPurchase cfg : ℝ) -
    carryingCost cfg - hedgeCarryCostPerStage cfg (placedStages i) +
    ((elimHedgeResult cfg i : ℚ) : ℝ)
  roi := calculateIRR (elimCashFlows cfg i)

/-- `allStakes` of the finals scenario (line 211): every stage's stake
when hedging is enabled, else `0`. -/
def allStakes (cfg : Config) : ℚ :=
  if cfg.hedgeEnabled then (STAGES.map cfg.hedgeStakes).sum else 0

/-- `hedgeResultFinals = hedgeEnabled ? -allStakes : 0` (line 213). -/
def hedgeResultFinals (cfg : Config) : ℚ :=
  if cfg.hedgeEnabled then -allStakes cfg else 0

/-- `grossProceeds = expectedResale * numTickets` (line 215). -/
def grossProceedsFinals (cfg : Config) : ℚ := cfg.expectedResale * cfg.numTickets

/-- `totalFees = resaleFee + processingFee + fixedTransactionCost`
(lines 216-218). -/
def totalFeesFinals (cfg : Config) : ℚ :=
  grossProceedsFinals cfg * (cfg.resaleFeePercent / 100) +
  grossProceedsFinals cfg * (cfg.processingFeePercent / 100) +
  cfg.fixedTransactionCost

/-- `netProceeds = grossProceeds - totalFees` (line 219). -/
def netProceedsFinals (cfg : Config) : ℚ :=
  grossProceedsFinals cfg - totalFeesFinals cfg

/-- The IRR cash flows of the finals scenario (lines 222-235). -/
noncomputable def finalsCashFlows (cfg : Config) : List CashFlow :=
  [⟨0, -(totalPurchase cfg : ℝ)⟩,
   ⟨proceedsMonth, ((netProceedsFinals cfg : ℚ) : ℝ)⟩] ++
  (if cfg.hedgeEnabled then hedgeOutflows cfg.hedgeStakes STAGES else [])

/-- The finals ("reaches final") scenario (lines 210-253). -/
noncomputable def finalsScenario (cfg : Config) : Scenario where
  probability := probFinals cfg.bettingOdds
  isFinals := true
  grossProceeds := ((grossProceedsFinals cfg : ℚ) : ℝ)
  netProceeds := ((netProceedsFinals cfg : ℚ) : ℝ)
  resaleFee := ((grossProceedsFinals cfg * (cfg.resaleFeePercent / 100) : ℚ) : ℝ)
  processingFee := ((grossProceedsFinals cfg * (cfg.processingFeePercent / 100) : ℚ) : ℝ)
  totalFees := ((totalFeesFinals cfg : ℚ) : ℝ)
  hedgeResult := ((hedgeResultFinals cfg : ℚ) : ℝ)
  hCarryCost := hedgeCarryCostPerStage cfg STAGES
  stakePlaced := allStakes cfg
  netPL := ((netProceedsFinals cfg : ℚ) : ℝ) - (totalPurchase cfg : ℝ) -
    carryingCost cfg - hedgeCarryCostPerStage cfg STAGES +
    ((hedgeResultFinals cfg : ℚ) : ℝ)
  roi := calculateIRR (finalsCashFlows cfg)

/-- The six scenarios in source order (lines 153-255): the five
elimination scenarios followed by the finals scenario. -/
noncomputable def scenarios (cfg : Config) : List Scenario :=
  (List.ofFn (elimScenario cfg)) ++ [finalsScenario cfg]

/-- `netFeeRate = 1 - resaleFeePercent/100 - processingFeePercent/100`
(lines 294 and 311). -/
def netFeeRate (cfg : Config) : ℚ :=
  1 - cfg.resaleFeePercent / 100 - cfg.processingFeePercent / 100

/-- `breakEvenResale` (lines 293-301):
`targetNet = totalPurchase + carryingCost + hcc - hedgeRes`, result
`(targetNet + fixedTransactionCost) / (numTickets * netFeeRate)` — no
domain check on `netFeeRate`; `ℝ` division by zero yields the junk value
`0` where JavaScript yields `Infinity`. -/
noncomputable def breakEvenResale (cfg : Config) : ℝ :=
  ((totalPurchase cfg : ℝ) + carryingCost cfg +
      hedgeCarryCostPerStage cfg STAGES - ((hedgeResultFinals cfg : ℚ) : ℝ) +
      (cfg.fixedTransactionCost : ℝ)) /
    ((cfg.numTickets : ℝ) * ((netFeeRate cfg : ℚ) : ℝ))

/-- One point of the sensitivity sweep (line 318). -/
structure SensPoint where
  price : ℚ
  finals : ℝ
  expectedValue : ℝ

/-- `elimPL` (line 306): probability-weighted net P&L of the
non-finals scenarios. -/
noncomputable def elimPL (cfg : Config) : ℝ :=
  ((scenarios cfg).filter (fun s => !s.isFinals)).foldl
    (fun sum s => sum + ((s.probability : ℚ) : ℝ) / 100 * s.netPL) 0

/-- The finals net P&L recomputed at a swept price (lines 314-316):
`np = price * numTickets * netFeeRate - fixedTransactionCost`,
`finalsPL = np - totalPurchase - carryingCost - hcc + hedgeRes`. -/
noncomputable def finalsPLAtPrice (cfg : Config) (price : ℚ) : ℝ :=
  ((price * cfg.numTickets : ℚ) : ℝ) * ((netFeeRate cfg : ℚ) : ℝ) -
    (cfg.fixedTransactionCost : ℝ) - (totalPurchase cfg : ℝ) - carryingCost cfg -
    hedgeCarryCostPerStage cfg STAGES + ((hedgeResultFinals cfg : ℚ) : ℝ)

/-- The data point pushed at sweep step `k` (lines 313-318, loop body
with `price = 2000 + 500 * k`): `(price, finalsPL, expectedValue)` with
`ev = (probFinals / 100) * finalsPL + elimPL`. -/
noncomputable def sensPoint (cfg : Config) (k : ℕ) : SensPoint :=
  let price : ℚ := 2000 + 500 * k
  ⟨price, finalsPLAtPrice cfg price,
    ((probFinals cfg.bettingOdds : ℚ) : ℝ) / 100 * finalsPLAtPrice cfg price +
      elimPL cfg⟩

/-- `sensitivityData` (lines 304-322): sweep `price` from 2000 to 30000
in steps of 500 (57 points with `price = 2000 + 500 * k`). -/
noncomputable def sensitivityData (cfg : Config) : List SensPoint :=
  (List.range 57).map (sensPoint cfg)

/-! ## Helper lemmas -/

set_option maxRecDepth 8000

/-- Rounding an integer is the identity. -/
theorem jsRound_int (z : ℤ) : jsRound (z : ℚ) = z := by
  unfold jsRound
  rw [Int.floor_int_add]
  norm_num

/-- When the derivative of the NPV is below the `1e-14` cutoff, one
iteration of the Newton-Raphson loop breaks and annualizes the current
rate. -/
theorem irrGo_break (cashFlows : List CashFlow) (fuel : ℕ) (r : ℝ)
    (h : |dnpv cashFlows r| < 1e-14) :
    irrGo cashFlows (fuel + 1) r = annualize r := by
  simp only [irrGo]
  rw [if_pos h]

/-- Implied probabilities are non-negative for every odds function. -/
theorem impliedProb_nonneg (o : Outcome → ℚ) (k : Outcome) : 0 ≤ impliedProb o k := by
  unfold impliedProb
  split
  · positivity
  · exact le_refl 0

/-- Fair probabilities are non-negative for every odds function. -/
theorem fairProbs_nonneg (o : Outcome → ℚ) (k : Outcome) : 0 ≤ fairProbs o k := by
  unfold fairProbs
  split
  · have h1 := impliedProb_nonneg o k
    positivity
  · exact le_refl 0

/-- Conditional elimination probabilities are non-negative for every
odds function. -/
theorem condProb_nonneg (o : Outcome → ℚ) (i : Fin 5) : 0 ≤ condProb o i := by
  unfold condProb
  split
  · rename_i h
    have h1 := fairProbs_nonneg o (stageAt i)
    positivity
  · exact le_refl 0

/-- Devigging normalizes: when the total implied probability is positive
the fair probabilities over the seven outcomes sum to exactly 100. -/
theorem sumFair_eq (o : Outcome → ℚ) (h : 0 < totalImplied o) :
    (ALL_OUTCOMES.map (fairProbs o)).sum = 100 := by
  have hne : totalImplied o ≠ 0 := ne_of_gt h
  have hsum : impliedProb o .Group + impliedProb o .R32 + impliedProb o .R16 +
      impliedProb o .QF + impliedProb o .SF + impliedProb o .RunnerUp +
      impliedProb o .Winner = totalImplied o := by
    simp only [totalImplied, ALL_OUTCOMES, STAGES, List.map, List.sum_cons,
      List.sum_nil, List.cons_append, List.nil_append]
    ring
  have expand : (ALL_OUTCOMES.map (fairProbs o)).sum
      = (impliedProb o .Group + impliedProb o .R32 + impliedProb o .R16 +
         impliedProb o .QF + impliedProb o .SF + impliedProb o .RunnerUp +
         impliedProb o .Winner) / totalImplied o * 100 := by
    simp only [ALL_OUTCOMES, STAGES, List.map, List.sum_cons, List.sum_nil,
      List.cons_append, List.nil_append, fairProbs, if_pos h]
    ring
  rw [expand, hsum, div_self hne, one_mul]

/-- The finals P&L of the sensitivity sweep is monotone in price as long
as the unit count is non-negative and the fee rates sum to at most 100%. -/
theorem finalsPL_mono (cfg : Config) (p1 p2 : ℚ) (hp : p1 ≤ p2)
    (hT : 0 ≤ cfg.numTickets)
    (hF : cfg.resaleFeePercent + cfg.processingFeePercent ≤ 100) :
    finalsPLAtPrice cfg p1 ≤ finalsPLAtPrice cfg p2 := by
  unfold finalsPLAtPrice
  have hfee : (0 : ℚ) ≤ netFeeRate cfg := by
    unfold netFeeRate; linarith
  have key : (0 : ℚ) ≤ (p2 * cfg.numTickets - p1 * cfg.numTickets) * netFeeRate cfg := by
    apply mul_nonneg _ hfee
    nlinarith
  have keyR : (0 : ℝ) ≤
      (((p2 * cfg.numTickets - p1 * cfg.numTickets) * netFeeRate cfg : ℚ) : ℝ) := by
    exact_mod_cast key
  push_cast at keyR
  push_cast
  nlinarith [keyR]

/-! ## Claim C1 -/

/-- Claim C1, counterexample: at the default configuration and the
Group-stage elimination scenario, the scenario's net P&L does NOT equal
reimbursement − purchase − base carry − hedge carry plus
(full winning payout `stake × adjustedOdds` minus only the stakes
forfeited before the stage): the two sides differ by the winning stake
itself (the source adds the net gain `stake × (adjustedOdds − 1)`, not
the full payout). -/
theorem elim_netPL_claim_cex :
    (elimScenario DEFAULTS 0).netPL ≠
      ((DEFAULTS.pricePerTicket * DEFAULTS.numTickets : ℚ) : ℝ) - (totalPurchase DEFAULTS : ℝ) -
      carryingCost DEFAULTS - hedgeCarryCostPerStage DEFAULTS (placedStages 0) +
      ((DEFAULTS.hedgeStakes (stageAt 0) * adjustedOdds DEFAULTS.bettingOdds 0 -
        ((STAGES.take (0 : Fin 5).val).map DEFAULTS.hedgeStakes).sum : ℚ) : ℝ) := by
  intro h
  have hstake : DEFAULTS.hedgeStakes (stageAt 0) = 25 := by
    norm_num [DEFAULTS, stageAt]
  simp only [elimScenario, elimHedgeResult, winningStake, lostStakes,
    show DEFAULTS.hedgeEnabled = true from rfl, if_true, placedStages, hstake] at h
  push_cast at h
  simp only [STAGES, stageAt, List.take, List.map, List.sum_cons, List.sum_nil] at h
  norm_num [DEFAULTS] at h

/-- Claim C1 (amended): with hedging enabled and a positive conditional
probability at the elimination stage, the stage-`i` scenario's net P&L
equals full ticket reimbursement (price × units, no fees) minus purchase
cost, minus base carrying cost, minus hedge carrying cost over the
stages placed up to and including `i`, plus a hedge result equal to the
winning payout `stake_i × adjustedOdds_i` minus the sum of ALL the
stakes placed up to and including stage `i` (not just those before it). -/
theorem elim_netPL_decomposition (cfg : Config) (i : Fin 5)
    (hH : cfg.hedgeEnabled = true) (hC : 0 < condProb cfg.bettingOdds i) :
    (elimScenario cfg i).netPL =
      ((cfg.pricePerTicket * cfg.numTickets : ℚ) : ℝ) - (totalPurchase cfg : ℝ) -
      carryingCost cfg - hedgeCarryCostPerStage cfg (placedStages i) +
      ((cfg.hedgeStakes (stageAt i) * adjustedOdds cfg.bettingOdds i -
        ((placedStages i).map cfg.hedgeStakes).sum : ℚ) : ℝ) := by
  have hsplit : ((STAGES.take (i.val + 1)).map cfg.hedgeStakes).sum
      = ((STAGES.take i.val).map cfg.hedgeStakes).sum + cfg.hedgeStakes (stageAt i) := by
    fin_cases i <;> simp [STAGES, stageAt] <;> ring
  simp only [elimScenario, elimHedgeResult, winningStake, lostStakes, hH, if_true,
    placedStages, hsplit]
  push_cast
  ring

/-- Claim C1, witness: the amended decomposition instantiated at the
default configuration and the Group stage, whose hypotheses hold. -/
theorem elim_netPL_decomposition_witness :
    DEFAULTS.hedgeEnabled = true ∧ 0 < condProb DEFAULTS.bettingOdds 0 ∧
    (elimScenario DEFAULTS 0).netPL =
      ((DEFAULTS.pricePerTicket * DEFAULTS.numTickets : ℚ) : ℝ) - (totalPurchase DEFAULTS : ℝ) -
      carryingCost DEFAULTS - hedgeCarryCostPerStage DEFAULTS (placedStages 0) +
      ((DEFAULTS.hedgeStakes (stageAt 0) * adjustedOdds DEFAULTS.bettingOdds 0 -
        ((placedStages 0).map DEFAULTS.hedgeStakes).sum : ℚ) : ℝ) := by
  have hC : 0 < condProb DEFAULTS.bettingOdds 0 := by
    norm_num [condProb, survivalProb, cumProbBefore, fairProbs, impliedProb,
      totalImplied, ALL_OUTCOMES, STAGES, stageAt, DEFAULTS]
  exact ⟨rfl, hC, elim_netPL_decomposition DEFAULTS 0 rfl hC⟩

/-! ## Claim C2 -/

/-- Claim C2, counterexample: on the degenerate cash-flow list
`[(0, −1000)]` the solver does NOT return the −100% annualized
sentinel. -/
theorem irr_single_outflow_not_sentinel : calculateIRR [⟨0, -1000⟩] ≠ -100 := by
  have heq : calculateIRR [⟨0, -1000⟩] = ((1 + 1 / 100 : ℝ) ^ (12 : ℕ) - 1) * 100 := by
    have hdf : dnpv [⟨0, -1000⟩] (1 / 100) = 0 := by
      simp only [dnpv, List.foldl_cons, List.foldl_nil, Rat.cast_zero, neg_zero,
        zero_mul, zero_div, add_zero]
    unfold calculateIRR
    rw [show (100 : ℕ) = 99 + 1 from rfl, irrGo_break _ _ _ (by rw [hdf]; norm_num)]
    unfold annualize
    norm_num
  rw [heq]
  have h12 : (1 : ℝ) < (1 + 1 / 100 : ℝ) ^ (12 : ℕ) := by
    apply one_lt_pow₀ (by norm_num) (by norm_num)
  nlinarith

/-- Claim C2 (amended): on the degenerate cash-flow list `[(0, −1000)]`
the NPV derivative at the initial guess is zero, so the solver breaks on
the very first iteration (it terminates within the bound and raises
nothing) and returns the annualization of the initial guess,
`((1 + 0.01)^12 − 1) × 100` (≈ 12.68%) — not the −100% sentinel. -/
theorem irr_single_outflow_eq :
    calculateIRR [⟨0, -1000⟩] = ((1 + 1 / 100 : ℝ) ^ (12 : ℕ) - 1) * 100 := by
  have hdf : dnpv [⟨0, -1000⟩] (1 / 100) = 0 := by
    simp only [dnpv, List.foldl_cons, List.foldl_nil, Rat.cast_zero, neg_zero,
      zero_mul, zero_div, add_zero]
  unfold calculateIRR
  rw [show (100 : ℕ) = 99 + 1 from rfl, irrGo_break _ _ _ (by rw [hdf]; norm_num)]
  unfold annualize
  norm_num

/-! ## Claim C3 -/

/-- A configuration whose fee rates sum to exactly 100%. -/
def cfgFullFees : Config := { DEFAULTS with resaleFeePercent := 60, processingFeePercent := 40 }

/-- Claim C3 (code bug): with `resaleFeePercent = 60` and
`processingFeePercent = 40` the net fee rate is zero, yet
`breakEvenResale` performs the division anyway and returns a plain
number — `Infinity` in JavaScript, the division-by-zero junk value `0`
in this `ℝ` embedding — with no error channel of any kind: the
function's codomain has no way to surface the "undefined breakeven"
condition the spec requires. -/
theorem breakeven_no_domain_check :
    netFeeRate cfgFullFees = 0 ∧ breakEvenResale cfgFullFees = 0 := by
  have h : netFeeRate cfgFullFees = 0 := by norm_num [netFeeRate, cfgFullFees, DEFAULTS]
  refine ⟨h, ?_⟩
  unfold breakEvenResale
  rw [h]
  norm_num

/-! ## Claim C4 -/

/-- Claim C4, counterexample: the American-odds round trip at `v = −100`
(a valid American value) returns `+100`, which differs from `v` by 200
units, far beyond the claimed 1-unit bound. -/
theorem american_roundtrip_cex :
    ¬ (|decimalToAmerican (americanToDecimal ((-100 : ℤ) : ℚ)) - (-100)| ≤ 1) := by
  have h : decimalToAmerican (americanToDecimal ((-100 : ℤ) : ℚ)) = 100 := by
    norm_num [americanToDecimal, decimalToAmerican, jsRound, abs]
  rw [h]
  norm_num

/-- Claim C4 (amended): for every integer `v` with `v ≥ 100` or
`v ≤ −101`, the round trip `decimalToAmerican (americanToDecimal v)` is
exactly `v` (so in particular within 1 unit); the only valid American
value excluded is `v = −100`, which round-trips to `+100` (its
even-money equivalent), 200 units away. -/
theorem american_roundtrip_exact (v : ℤ) (h : 100 ≤ v ∨ v ≤ -101) :
    decimalToAmerican (americanToDecimal (v : ℚ)) = v := by
  rcases h with h | h
  · have hv : (100 : ℚ) ≤ (v : ℚ) := by exact_mod_cast h
    rw [americanToDecimal, if_pos (by linarith)]
    rw [decimalToAmerican, if_pos (by linarith)]
    have heq : (1 + (v : ℚ) / 100 - 1) * 100 = ((v : ℤ) : ℚ) := by field_simp
    rw [heq, jsRound_int]
  · have hv : (v : ℚ) ≤ -101 := by exact_mod_cast h
    have hneg : (v : ℚ) < 0 := by linarith
    rw [americanToDecimal, if_neg (by linarith), if_pos (by linarith),
      abs_of_neg hneg]
    have hfrac : 100 / -(v : ℚ) < 1 := by
      rw [div_lt_one (by linarith)]
      linarith
    have hpos : 0 < 100 / -(v : ℚ) := by
      apply div_pos (by norm_num) (by linarith)
    rw [decimalToAmerican, if_neg (by linarith), if_pos (by linarith)]
    have hvne : (v : ℚ) ≠ 0 := ne_of_lt hneg
    have heq : -100 / (1 + 100 / -(v : ℚ) - 1) = ((v : ℤ) : ℚ) := by
      field_simp
    rw [heq, jsRound_int]

/-- Claim C4, witness: the exact round trip instantiated at `v = 250`. -/
theorem american_roundtrip_exact_witness :
    (100 ≤ (250 : ℤ) ∨ (250 : ℤ) ≤ -101) ∧
    decimalToAmerican (americanToDecimal ((250 : ℤ) : ℚ)) = 250 :=
  ⟨Or.inl (by norm_num), american_roundtrip_exact 250 (Or.inl (by norm_num))⟩

/-! ## Claim C5 -/

/-- A front-loaded odds set (Group-stage elimination at decimal odds 2,
every other outcome at 100): all values are valid decimal odds (> 1). -/
def frontLoadedOdds : Outcome → ℚ
  | .Group => 2 | _ => 100

/-- Claim C5, counterexample: with the front-loaded odds set the
conditional elimination probability of the second stage (R32) is
strictly SMALLER than that of the first stage (Group), so the
conditional probabilities do not increase along the stage sequence for
every odds set. -/
theorem condProb_not_monotone_cex :
    condProb frontLoadedOdds 1 < condProb frontLoadedOdds 0 := by
  norm_num [condProb, survivalProb, cumProbBefore, fairProbs, impliedProb,
    totalImplied, ALL_OUTCOMES, STAGES, stageAt, frontLoadedOdds]

/-- Claim C5 (amended): the per-stage conditional elimination
probabilities are non-negative for EVERY odds set, and for the default
odds set (though not universally) every later stage has a strictly
higher conditional elimination probability than every earlier stage. -/
theorem condProb_nonneg_and_default_chain :
    (∀ (o : Outcome → ℚ) (i : Fin 5), 0 ≤ condProb o i) ∧
    (∀ i j : Fin 5, i < j →
      condProb DEFAULTS.bettingOdds i < condProb DEFAULTS.bettingOdds j) := by
  refine ⟨condProb_nonneg, ?_⟩
  intro i j hij
  fin_cases i <;> fin_cases j <;>
    simp_all only [Fin.mk_lt_mk] <;>
    first
      | omega
      | norm_num [condProb, survivalProb, cumProbBefore, fairProbs, impliedProb,
          totalImplied, ALL_OUTCOMES, STAGES, stageAt, DEFAULTS]

/-- Claim C5, witness: the amended statement applied at the concrete
pair Group < R32 of the default odds set. -/
theorem condProb_nonneg_and_default_chain_witness :
    (0 : Fin 5) < 1 ∧ 0 ≤ condProb DEFAULTS.bettingOdds 0 ∧
    condProb DEFAULTS.bettingOdds 0 < condProb DEFAULTS.bettingOdds 1 :=
  ⟨by decide, condProb_nonneg_and_default_chain.1 DEFAULTS.bettingOdds 0,
    condProb_nonneg_and_default_chain.2 0 1 (by decide)⟩

/-! ## Claim C6 -/

/-- Claim C6: whenever the total implied probability is positive, the
devigged fair probabilities over the seven outcomes sum to exactly 100
(the floating-point claim's 1e-9 tolerance is subsumed by exactness in
`ℚ`). -/
theorem devig_fair_sums_100 (o : Outcome → ℚ) (h : 0 < totalImplied o) :
    (ALL_OUTCOMES.map (fairProbs o)).sum = 100 :=
  sumFair_eq o h

/-- Claim C6, witness: the default odds set has positive total implied
probability and its fair probabilities sum to 100. -/
theorem devig_fair_sums_100_witness :
    0 < totalImplied DEFAULTS.bettingOdds ∧
    (ALL_OUTCOMES.map (fairProbs DEFAULTS.bettingOdds)).sum = 100 := by
  have h : 0 < totalImplied DEFAULTS.bettingOdds := by
    norm_num [totalImplied, ALL_OUTCOMES, STAGES, impliedProb, DEFAULTS]
  exact ⟨h, devig_fair_sums_100 DEFAULTS.bettingOdds h⟩

/-! ## Claim C7 -/

/-- Claim C7: for any configuration whose odds set is valid (every
decimal odds value exceeds 1, as the data model requires of an
`OddsSet`), the probabilities attached to the six scenarios — the five
stages' fair probabilities plus the reaches-final probability
`fair RunnerUp + fair Winner` — sum to exactly 100. -/
theorem scenario_probs_sum_100 (cfg : Config)
    (h : ∀ k : Outcome, 1 < cfg.bettingOdds k) :
    ((scenarios cfg).map (fun s => s.probability)).sum = 100 := by
  have himp : ∀ k : Outcome, 0 < impliedProb cfg.bettingOdds k := by
    intro k
    have hk := h k
    rw [impliedProb, if_pos (by linarith)]
    positivity
  have htot : 0 < totalImplied cfg.bettingOdds := by
    have h1 := himp .Group
    have h2 := himp .R32
    have h3 := himp .R16
    have h4 := himp .QF
    have h5 := himp .SF
    have h6 := himp .RunnerUp
    have h7 := himp .Winner
    simp only [totalImplied, ALL_OUTCOMES, STAGES, List.map, List.sum_cons,
      List.sum_nil, List.cons_append, List.nil_append]
    linarith
  have hsum := sumFair_eq cfg.bettingOdds htot
  simp only [ALL_OUTCOMES, STAGES, List.map, List.sum_cons, List.sum_nil,
    List.cons_append, List.nil_append] at hsum
  simp only [scenarios, List.ofFn_succ, List.ofFn_zero, Fin.isValue,
    List.cons_append, List.nil_append, List.map, List.sum_cons, List.sum_nil,
    elimScenario, finalsScenario, probFinals]
  norm_num [stageAt, Fin.succ]
  linarith

/-- Claim C7, witness: the six scenario probabilities of the default
configuration (all of whose odds exceed 1) sum to 100. -/
theorem scenario_probs_sum_100_witness :
    (∀ k : Outcome, 1 < DEFAULTS.bettingOdds k) ∧
    ((scenarios DEFAULTS).map (fun s => s.probability)).sum = 100 := by
  have h : ∀ k : Outcome, 1 < DEFAULTS.bettingOdds k := by
    intro k
    cases k <;> norm_num [DEFAULTS]
  exact ⟨h, scenario_probs_sum_100 DEFAULTS h⟩

/-! ## Claim C8 -/

/-- A configuration whose fee rates sum beyond 100% (resale fee 150%). -/
def cfgHighFees : Config := { DEFAULTS with resaleFeePercent := 150 }

/-- Claim C8, counterexample: with fee rates held fixed at 150% + 3%
(and two tickets), the finals P&L of the sensitivity sweep at the sweep
price 2500 (index 1) is strictly SMALLER than at the sweep price 2000
(index 0) — the curve is strictly decreasing, refuting unconditional
monotonicity. -/
theorem sensitivity_not_monotone_cex :
    ((sensitivityData cfgHighFees).getD 1 ⟨0, 0, 0⟩).finals <
      ((sensitivityData cfgHighFees).getD 0 ⟨0, 0, 0⟩).finals := by
  have e1 : (sensitivityData cfgHighFees).getD 1 ⟨0, 0, 0⟩ = sensPoint cfgHighFees 1 := by
    simp [sensitivityData, List.getD, List.getElem?_map, List.getElem?_range]
  have e0 : (sensitivityData cfgHighFees).getD 0 ⟨0, 0, 0⟩ = sensPoint cfgHighFees 0 := by
    simp [sensitivityData, List.getD, List.getElem?_map, List.getElem?_range]
  rw [e1, e0]
  simp only [sensPoint]
  have hnet : ((netFeeRate cfgHighFees : ℚ) : ℝ) = -53 / 100 := by
    norm_num [netFeeRate, cfgHighFees, DEFAULTS]
  unfold finalsPLAtPrice
  rw [hnet]
  push_cast
  norm_num [cfgHighFees, DEFAULTS]

/-- Claim C8 (amended): with all inputs held fixed, provided the unit
count is non-negative and the fee rates sum to at most 100% (so the net
fee rate is non-negative), the finals P&L of the sensitivity sweep is
monotonically non-decreasing along the swept prices: for sweep indices
`k1 ≤ k2` the finals P&L at index `k1` is at most that at index `k2`.
When the fee rates sum beyond 100% the curve is strictly decreasing
instead. -/
theorem sensitivity_finals_monotone (cfg : Config) (k1 k2 : ℕ)
    (h1 : k1 < (sensitivityData cfg).length) (h2 : k2 < (sensitivityData cfg).length)
    (hk : k1 ≤ k2) (hT : 0 ≤ cfg.numTickets)
    (hF : cfg.resaleFeePercent + cfg.processingFeePercent ≤ 100) :
    ((sensitivityData cfg).get ⟨k1, h1⟩).finals ≤
      ((sensitivityData cfg).get ⟨k2, h2⟩).finals := by
  simp only [sensitivityData, List.get_eq_getElem, List.getElem_map, List.getElem_range,
    sensPoint]
  apply finalsPL_mono cfg _ _ _ hT hF
  have hq : (k1 : ℚ) ≤ (k2 : ℚ) := by exact_mod_cast hk
  linarith

/-- Claim C8, witness: the monotone step from sweep index 0 to sweep
index 1 at the default configuration (fees 15% + 3%, two tickets). -/
theorem sensitivity_finals_monotone_witness :
    0 ≤ DEFAULTS.numTickets ∧
    DEFAULTS.resaleFeePercent + DEFAULTS.processingFeePercent ≤ 100 ∧
    ((sensitivityData DEFAULTS).get ⟨0, by simp [sensitivityData]⟩).finals ≤
      ((sensitivityData DEFAULTS).get ⟨1, by simp [sensitivityData]⟩).finals := by
  refine ⟨by norm_num [DEFAULTS], by norm_num [DEFAULTS], ?_⟩
  exact sensitivity_finals_monotone DEFAULTS 0 1 (by simp [sensitivityData])
    (by simp [sensitivityData]) (by norm_num) (by norm_num [DEFAULTS])
    (by norm_num [DEFAULTS])

/-! ## Claim C9 -/

/-- Claim C9: when hedging is disabled, every one of the six scenarios
has zero hedge result, zero hedge carrying cost and zero total stake
placed; each scenario's IRR cash-flow timeline is exactly the purchase
outflow at month 0 and the proceeds inflow at the sale month (no
hedge-related events); and the non-hedge economics are untouched: the
net P&L is proceeds minus purchase minus base carrying cost and the IRR
is solved on that bare two-event timeline. -/
theorem hedge_disabled_zeroes (cfg : Config) (h : cfg.hedgeEnabled = false) :
    (∀ i : Fin 5,
      (elimScenario cfg i).hedgeResult = 0 ∧
      (elimScenario cfg i).hCarryCost = 0 ∧
      (elimScenario cfg i).stakePlaced = 0 ∧
      elimCashFlows cfg i =
        [⟨0, -(totalPurchase cfg : ℝ)⟩,
         ⟨proceedsMonth, ((cfg.pricePerTicket * cfg.numTickets : ℚ) : ℝ)⟩] ∧
      (elimScenario cfg i).netPL =
        ((cfg.pricePerTicket * cfg.numTickets : ℚ) : ℝ) - (totalPurchase cfg : ℝ) -
          carryingCost cfg ∧
      (elimScenario cfg i).roi = calculateIRR
        [⟨0, -(totalPurchase cfg : ℝ)⟩,
         ⟨proceedsMonth, ((cfg.pricePerTicket * cfg.numTickets : ℚ) : ℝ)⟩]) ∧
    ((finalsScenario cfg).hedgeResult = 0 ∧
     (finalsScenario cfg).hCarryCost = 0 ∧
     (finalsScenario cfg).stakePlaced = 0 ∧
     finalsCashFlows cfg =
       [⟨0, -(totalPurchase cfg : ℝ)⟩, ⟨proceedsMonth, ((netProceedsFinals cfg : ℚ) : ℝ)⟩] ∧
     (finalsScenario cfg).netPL =
       ((netProceedsFinals cfg : ℚ) : ℝ) - (totalPurchase cfg : ℝ) - carryingCost cfg ∧
     (finalsScenario cfg).roi = calculateIRR
       [⟨0, -(totalPurchase cfg : ℝ)⟩, ⟨proceedsMonth, ((netProceedsFinals cfg : ℚ) : ℝ)⟩]) := by
  constructor
  · intro i
    refine ⟨?_, ?_, ?_, ?_, ?_, ?_⟩ <;>
      simp [elimScenario, elimHedgeResult, hedgeCarryCostPerStage, totalStakePlaced,
        elimCashFlows, h]
  · refine ⟨?_, ?_, ?_, ?_, ?_, ?_⟩ <;>
      simp [finalsScenario, hedgeResultFinals, hedgeCarryCostPerStage, allStakes,
        finalsCashFlows, h]

/-- The default configuration with hedging switched off. -/
def cfgNoHedge : Config := { DEFAULTS with hedgeEnabled := false }

/-- Claim C9, witness: the hedge-disabled conclusions instantiated at
the default configuration with hedging off. -/
theorem hedge_disabled_zeroes_witness :
    cfgNoHedge.hedgeEnabled = false ∧
    (finalsScenario cfgNoHedge).hedgeResult = 0 ∧
    (elimScenario cfgNoHedge 0).hedgeResult = 0 ∧
    elimCashFlows cfgNoHedge 0 =
      [⟨0, -(totalPurchase cfgNoHedge : ℝ)⟩,
       ⟨proceedsMonth, ((cfgNoHedge.pricePerTicket * cfgNoHedge.numTickets : ℚ) : ℝ)⟩] :=
  ⟨rfl, (hedge_disabled_zeroes cfgNoHedge rfl).2.1,
    ((hedge_disabled_zeroes cfgNoHedge rfl).1 0).1,
    ((hedge_disabled_zeroes cfgNoHedge rfl).1 0).2.2.2.1⟩

/-! ## Claim C10 -/

/-- Claim C10: the computed breakeven resale price is invariant under
any change of the `expectedResale` input — two configurations that
differ only in the expected resale price have identical breakeven. -/
theorem breakeven_ignores_expectedResale (cfg : Config) (x : ℚ) :
    breakEvenResale { cfg with expectedResale := x } = breakEvenResale cfg := rfl
